import Mathlib

/-!
Verification of `python/lsst/sconsUtils/installation.py` (and the `Log`
helper of `utils.py`): a shallow embedding of the version resolver
(`determineVersion`), the prefix resolver (`setPrefix` with
`makeProductPath`), the directory installer (`DirectoryInstaller`,
`InstallDir`) and the package-metadata installer (`InstallEups`).

Modelling conventions:
  * A Python `env` mapping is the structure `PyEnv`; a key that may be
    absent is an `Option` field (`none` = key not present).
  * Python `None` return values are `Option.none`.
  * `state.log.fail` terminates the build (SCons `Exit(1)`) or raises a
    `RuntimeError` in traceback mode; both are the `Failure.logFail` error
    of an `Except`.  `state.log.warn` output is collected in a list.
  * The VCS backend helpers (`vcs.svn/hg/git.guessVersionName`) are out of
    repository scope; they enter as an oracle `Vcs` whose fields give each
    backend's outcome for the current working copy (`Except.error` = the
    backend raised).
  * Concrete regular expressions of the source are translated to
    executable string functions; each definition notes its regex.
-/

namespace SconsUtils

/-! ## String helpers (Python `str` / `re` / `os.path` fragments) -/

/-- Boolean list-prefix test, the primitive behind the anchored regex
searches and `startswith`/`endswith` tests below. -/
def listPre : List Char → List Char → Bool
  | [], _ => true
  | _ :: _, [] => false
  | a :: as, b :: bs => a == b && listPre as bs

/-- Python `s.startswith p` on the underlying character lists. -/
def strStartsWith (s p : String) : Bool := listPre p.data s.data

/-- Python `s.endswith p` on the underlying character lists. -/
def strEndsWith (s p : String) : Bool := listPre p.data.reverse s.data.reverse

/-- Python `s.replace("/", "_")` — the final normalisation of `determineVersion`. -/
def replSlash (s : String) : String := ⟨s.data.map (fun c => if c = '/' then '_' else c)⟩

/-- Python regex `\s` on the ASCII range (space, tab, newline, CR, VT, FF). -/
def isPySpace (c : Char) : Bool :=
  c = ' ' || c = '\t' || c = '\n' || c = '\r' || c = '\x0b' || c = '\x0c'

/-- Python `s.lower()` (ASCII case fold, enough for the keywords compared against). -/
def lowerStr (s : String) : String := ⟨s.data.map Char.toLower⟩

/-- Index of the last `/` in a character list, if any. -/
def lastSlashIdx : List Char → Option Nat
  | [] => none
  | c :: cs =>
    match lastSlashIdx cs with
    | some n => some (n + 1)
    | none => if c = '/' then some 0 else none

/-- Strip trailing `/` characters (`rstrip('/')`). -/
def dropTrailingSlashes (cs : List Char) : List Char :=
  (cs.reverse.dropWhile (fun c => c = '/')).reverse

/-- Python `os.path.split(s)[0]` (posixpath): everything before the final slash,
with trailing slashes stripped unless the head is all slashes. -/
def pathSplitHead (s : String) : String :=
  match lastSlashIdx s.data with
  | none => ""
  | some i =>
    let h := s.data.take (i + 1)
    if h.all (fun c => c = '/') then ⟨h⟩ else ⟨dropTrailingSlashes h⟩

/-- Python `os.path.split(s)[1]`: everything after the final slash. -/
def baseName (s : String) : String :=
  match lastSlashIdx s.data with
  | none => s
  | some i => ⟨s.data.drop (i + 1)⟩

/-- Python `os.path.join(a, b)` (posixpath, two arguments): `b` when absolute,
otherwise `a` and `b` joined with exactly one separator. -/
def pathJoin (a b : String) : String :=
  if strStartsWith b "/" then b
  else if a = "" || strEndsWith a "/" then a ++ b
  else a ++ "/" ++ b

/-! ## The build environment (`env`) and global state consumed here -/

/-- The slice of the SCons environment read by `installation.py`.
An `Option` field models presence of the key (`'x' in env`); the Python
truthiness test `env['x']` is `≠ ""` on the stored string. -/
structure PyEnv where
  /-- Python `env['version']` when the key is present (an explicitly configured version). -/
  version : Option String
  /-- Python `env['prefix']` when the key is present (the explicit prefix override). -/
  prefixKey : Option String
  /-- Python `env['eupsPath']` when the key is present. -/
  eupsPath : Option String
  /-- Python `env['eupsProductPath']` when the key is present (distinct from the
  `eupsProductPath` *argument* of `setPrefix`). -/
  eupsProductPath : Option String
  /-- Python `env['eupsFlavor']`. -/
  eupsFlavor : String
  /-- Python `env['eupsProduct']`. -/
  eupsProduct : String
  /-- Python `env['baseversion']` when the key is present. -/
  baseversion : Option String
  /-- Python `env['force']`. -/
  force : Bool
  /-- Python `env.installing`. -/
  installing : Bool
  /-- Python `env.declaring`. -/
  declaring : Bool
  /-- Python `os.environ['PWD']`. -/
  pwd : String
deriving Repr, DecidableEq

/-- Outcomes of the out-of-scope VCS backend queries for the current working
copy (`Except.error` = the Python call raised a `RuntimeError`). -/
structure Vcs where
  /-- Python `svn.guessVersionName(HeadURL)`. -/
  svnGuess : String → Except String String
  /-- Python `hg.guessVersionName()`. -/
  hgGuess : Except String String
  /-- Python `git.guessVersionName()`. -/
  gitGuess : Except String String

/-! ## `determineVersion` (installation.py lines 47-69) -/

/-- Match of `re.search(r"^[$]Name:\s+([^ $]*)", s)`: requires the prefix
`$Name:` followed by at least one whitespace character; the capture is the
maximal run of characters other than space and `$` after the whitespace. -/
def matchCvs (s : String) : Option String :=
  if listPre "$Name:".data s.data then
    match s.data.drop 6 with
    | c :: rest =>
      if isPySpace c then
        some ⟨((c :: rest).dropWhile isPySpace).takeWhile (fun d => !(d = ' ' || d = '$'))⟩
      else none
    | [] => none
  else none

/-- Match of `re.search(r"^[$]HeadURL:\s+(.*)", s)`: requires the prefix
`$HeadURL:` followed by at least one whitespace character; the capture runs
from the first non-whitespace character to the end of the line. -/
def matchSvnUrl (s : String) : Option String :=
  if listPre "$HeadURL:".data s.data then
    match s.data.drop 9 with
    | c :: rest =>
      if isPySpace c then
        some ⟨((c :: rest).dropWhile isPySpace).takeWhile (fun d => !(d = '\n'))⟩
      else none
    | [] => none
  else none

/-- The `version` value computed by `determineVersion` before the final
`version.replace("/", "_")`; an exception from a VCS backend propagates. -/
def determineVersionRaw (vcs : Vcs) (env : PyEnv) (versionString : String) :
    Except String String :=
  match env.version with
  | some v => .ok v
  | none =>
    if versionString = "" then .ok "unknown"
    else
      match matchCvs versionString with
      | some tag => .ok (if tag = "" then "cvs" else tag)
      | none =>
        match matchSvnUrl versionString with
        | some url => vcs.svnGuess (pathSplitHead url)
        | none =>
          if lowerStr versionString == "hg" || lowerStr versionString == "mercurial" then
            vcs.hgGuess
          else if lowerStr versionString == "git" then vcs.gitGuess
          else .ok "unknown"

/-- Python `determineVersion(env, versionString)`: the raw resolution followed by
`replace("/", "_")` on the returned string. -/
def determineVersion (vcs : Vcs) (env : PyEnv) (versionString : String) :
    Except String String :=
  (determineVersionRaw vcs env versionString).map replSlash

/-! ## `makeProductPath` (installation.py lines 30-41) -/

/-- Python regex `\w` (ASCII range). -/
def isWordChar (c : Char) : Bool := c.isAlphanum || c = '_'

/-- The value substituted for a recognized placeholder letter by
`makeProductPath`'s dictionary: `P` = `env['eupsPath']` or the working
directory, `f` = flavor, `p` = product, `v` = `env['version']` (passed here
as `ver`), `c` = the working directory; `none` for any other key
(a `KeyError` from the `%` formatting). -/
def fmtLookup (env : PyEnv) (ver : String) (c : Char) : Option String :=
  if c = 'P' then
    some (match env.eupsPath with
          | some p => if p = "" then env.pwd else p
          | none => env.pwd)
  else if c = 'f' then some env.eupsFlavor
  else if c = 'p' then some env.eupsProduct
  else if c = 'v' then some ver
  else if c = 'c' then some env.pwd
  else none

/-- Python `re.sub(r"%(\w)", r"%(\1)s", fmt) % {...}` as one pass: `%` before a
word character substitutes that key's value, `%%` is a literal `%`, and any
other use of `%` is a formatting error (`none`).  (CPython tolerates a few
flag forms such as `"% s"`; none is exercised by this code base.) -/
def substFmt (env : PyEnv) (ver : String) : List Char → Option (List Char)
  | [] => some []
  | '%' :: rest =>
    match rest with
    | [] => none
    | '%' :: rest2 => (substFmt env ver rest2).map (fun r => '%' :: r)
    | c :: rest2 =>
      if isWordChar c then
        match fmtLookup env ver c, substFmt env ver rest2 with
        | some v, some r => some (v.data ++ r)
        | _, _ => none
      else none
  | c :: rest => (substFmt env ver rest).map (fun r => c :: r)

/-- Python `makeProductPath(env, pathFormat)`; `ver` is the current
`env['version']` (set by `setPrefix` before every call made here).
`none` models an uncaught formatting exception. -/
def makeProductPath (env : PyEnv) (ver : String) (pathFormat : String) : Option String :=
  (substFmt env ver pathFormat.data).map (fun r => ⟨r⟩)

/-! ## `setPrefix` (installation.py lines 90-130) -/

/-- How a run of `setPrefix` can terminate without returning. -/
inductive Failure where
  /-- Effect of `state.log.fail msg`: `SCons.Script.Exit(1)`, or `RuntimeError(msg)`
  in traceback mode — either way the call never returns. -/
  | logFail (msg : String)
  /-- An uncaught exception from the `%` formatting in `makeProductPath`. -/
  | formatError
deriving Repr, DecidableEq

/-- What a completed `setPrefix` call produced: the returned value (`none`
models Python `None`), the `state.log.warn` messages emitted, and the value
left in `env['version']`. -/
structure SPResult where
  ret : Option String
  warnings : List String
  finalVersion : String
deriving Repr, DecidableEq

/-- Lines 91-99: `env['version'] = determineVersion(...)` guarded by
`try/except RuntimeError`; on an exception the version falls back to
`"unknown"`, fatally via `log.fail` when `(env.installing or env.declaring)
and not env['force']`. -/
def resolveVersionStep (vcs : Vcs) (env : PyEnv) (versionString : String) :
    Except Failure String :=
  match determineVersion vcs env versionString with
  | .ok v => .ok v
  | .error err =>
    if (env.installing || env.declaring) && !env.force then
      .error (.logFail
        (err ++ "\nFound problem with version number; update or specify force=True to proceed"))
    else .ok "unknown"

/-- The `prodPath` of line 116-118: the `eupsProductPath` env key when
present and truthy, else `env['eupsProduct']`. -/
def prodPathOf (env : PyEnv) : String :=
  match env.eupsProductPath with
  | some s => if s ≠ "" then s else env.eupsProduct
  | none => env.eupsProduct

/-- Lines 101-130 of `setPrefix`, run with `env['version']` already set to
`ver`.  `noEups` is `state.env['no_eups']`; `eppArg` is the
`eupsProductPath` function argument. -/
def setPrefixCore (noEups : Bool) (env : PyEnv) (eppArg : Option String) (ver : String) :
    Except Failure SPResult :=
  if noEups then
    match env.prefixKey with
    | some p => if p ≠ "" then .ok ⟨some p, [], ver⟩ else .ok ⟨some "/usr/local", [], ver⟩
    | none => .ok ⟨some "/usr/local", [], ver⟩
  else
    let viaPath : Except Failure String :=
      match env.eupsPath with
      | some p =>
        if p ≠ "" then .ok p
        else .error (.logFail "Unable to determine eupsPrefix from eupsProductPath or eupsPath")
      | none => .error (.logFail "Unable to determine eupsPrefix from eupsProductPath or eupsPath")
    let pfxE : Except Failure String :=
      match eppArg with
      | some s =>
        if s ≠ "" then
          match makeProductPath env ver s with
          | some r => .ok r
          | none => .error .formatError
        else viaPath
      | none => viaPath
    match pfxE with
    | .error e => .error e
    | .ok ep0 =>
      -- line 114: re.search("/" + flavor + "$", eupsPrefix), flavor taken literally
      let epOpt : Option String :=
        if !(strEndsWith ep0 ("/" ++ env.eupsFlavor)) then
          some (pathJoin (pathJoin (pathJoin ep0 env.eupsFlavor) (prodPathOf env)) ver)
        else none
      match env.prefixKey with
      | some p =>
        let warns : List String :=
          match epOpt with
          | some ep =>
            if ver ≠ "unknown" ∧ ep ≠ "" ∧ ep ≠ p then
              ["Ignoring prefix " ++ ep ++ " from EUPS_PATH"]
            else []
          | none => []
        match makeProductPath env ver p with
        | some r => .ok ⟨some r, warns, ver⟩
        | none => .error .formatError
      | none =>
        match env.eupsPath with
        | some p => if p ≠ "" then .ok ⟨epOpt, [], ver⟩ else .ok ⟨some "/usr/local", [], ver⟩
        | none => .ok ⟨some "/usr/local", [], ver⟩

/-- Python `setPrefix(env, versionString, eupsProductPath)` in full. -/
def setPrefix (vcs : Vcs) (noEups : Bool) (env : PyEnv) (versionString : String)
    (eppArg : Option String) : Except Failure SPResult :=
  (resolveVersionStep vcs env versionString).bind (setPrefixCore noEups env eppArg)

/-! ## `DirectoryInstaller` (installation.py lines 231-260)

A source tree is a list of named entries; `DirectoryInstaller.__call__`
runs `os.walk` over it top-down.  The walk of the *source* directory itself
always happens; with `recursive` unset `dirnames[:] = []` stops every
descent, otherwise `dirnames[:] = [d for d in dirnames if d != ".svn"]`
prunes exactly the subdirectories named `.svn`.  A file is copied when
`ignoreRegex.search(filename)` (on the bare filename) finds nothing. -/

/-- One entry of a directory listing. -/
inductive Entry where
  | file (name : String)
  | dir (name : String) (children : List Entry)

/-- The filenames `DirectoryInstaller.__call__` copies out of a tree whose
top-level listing is `es` (`ign` is the compiled `ignoreRegex`, as a
predicate on the filename; `rcv` the `recursive` flag).  The walk order is
flattened; the set of copied names is that of the source. -/
def walkCopied (ign : String → Bool) (rcv : Bool) : List Entry → List String
  | [] => []
  | .file n :: es => (if ign n then [] else [n]) ++ walkCopied ign rcv es
  | .dir n cs :: es =>
    (if rcv && (n != ".svn") then walkCopied ign rcv cs else []) ++ walkCopied ign rcv es

/-- The component paths of the subdirectories the walk descends into
(relative to the source directory). -/
def walkDirs (rcv : Bool) : List Entry → List (List String)
  | [] => []
  | .file _ :: es => walkDirs rcv es
  | .dir n cs :: es =>
    (if rcv && (n != ".svn") then [n] :: (walkDirs rcv cs).map (fun p => n :: p) else [])
      ++ walkDirs rcv es

/-- Every subdirectory path of a tree (same traversal order, no pruning). -/
def allDirPaths : List Entry → List (List String)
  | [] => []
  | .file _ :: es => allDirPaths es
  | .dir n cs :: es => ([n] :: (allDirPaths cs).map (fun p => n :: p)) ++ allDirPaths es

/-- The default `ignoreRegex` of `InstallDir`, `r"(~$|\.pyc$|\.os?$)"`:
a name matches when it ends in `~`, `.pyc`, `.o` or `.os`. -/
def defaultIgnore (f : String) : Bool :=
  strEndsWith f "~" || strEndsWith f ".pyc" || strEndsWith f ".o" || strEndsWith f ".os"

/-! ## `InstallEups` file classification (installation.py lines 316-330) -/

/-- Python `[f for f in files if re.search(r"\.build$", f)]`. -/
def buildFiles (files : List String) : List String :=
  files.filter (fun f => strEndsWith f ".build")

/-- Python `[f for f in files if re.search(r"\.table$", f)]`. -/
def tableFiles (files : List String) : List String :=
  files.filter (fun f => strEndsWith f ".table")

/-- Python `[f for f in files if re.search(r"^eupspkg", f)]`. -/
def eupspkgFiles (files : List String) : List String :=
  files.filter (fun f => strStartsWith f "eupspkg")

/-- Python `[f for f in files if not re.search(r"\.(build|table)$", f)]`. -/
def miscFiles (files : List String) : List String :=
  files.filter (fun f => !(strEndsWith f ".build" || strEndsWith f ".table"))

/-! ## `InstallDir` and `InstallEups` as target/effect producers
(installation.py lines 267-274 and 290-372) -/

/-- A build action registered with SCons by these installers. -/
inductive Act where
  /-- Node of `env.Install(dest, f)`: a node at `join(dest, basename f)` installed
  from `f`. -/
  | installFile (node : String) (src : String)
  /-- The `InstallDir` command: target directory, source directory, the
  `ignoreRegex` source text and the `recursive` flag handed to
  `DirectoryInstaller`. -/
  | dirInstall (target : String) (source : String) (ignoreRegex : String) (recursive : Bool)
  /-- Command of `env.Command("table", "", Action(cmd))`. -/
  | tableCmd (cmd : String)
deriving Repr, DecidableEq

/-- A side effect on SCons state or the filesystem performed while the
SConscript runs (not deferred to a build action). -/
inductive Effect where
  | warn (msg : String)
  /-- Effect of `shutil.rmtree(dest, ignore_errors=True)`. -/
  | rmtree (path : String)
  | alwaysBuild (t : Act)
  /-- Effect of `env.AddPostAction(build_obj, Action(cmd))` — note the source adds the
  post-action to the whole `build_obj` list on every loop iteration. -/
  | postAction (ts : List Act) (cmd : String)
  | sideEffect (marker : String) (ts : List Act)
  | takeLocks (path : List String)
  | setEnvVar (key value : String)
  | depends (a : Act) (b : Act)
deriving Repr, DecidableEq

/-- Value of SCons `Dir(p).abspath` relative to the invocation directory. -/
def absOf (cwd p : String) : String :=
  if strStartsWith p "/" then p else pathJoin cwd p

/-- Python `InstallDir(self, prefix, dir, ignoreRegex, recursive)` (lines 267-274):
with `installing` unset it returns `[]` and does nothing; otherwise it
registers one always-built command running `DirectoryInstaller`. -/
def InstallDir (installing : Bool) (cwd pfx dir ignoreRegex : String) (recursive : Bool) :
    List Act × List Effect :=
  if !installing then ([], [])
  else
    let t := Act.dirInstall (pathJoin (absOf cwd pfx) dir) dir ignoreRegex recursive
    ([t], [.alwaysBuild t])

/-- Command string `"eups expandbuild -i --version %s "` plus the optional
`" --repoversion %s "` and the node path (lines 347-350). -/
def expandbuildCmd (env : PyEnv) (ver node : String) : String :=
  "eups expandbuild -i --version " ++ ver ++ " "
    ++ (match env.baseversion with
        | some bv => " --repoversion " ++ bv ++ " "
        | none => "")
    ++ node

/-- Command string `"eups expandtable -i -W '^(?!LOCAL:)' "` plus the presetup string and
the node path (lines 356-359). -/
def expandtableCmd (presetupStr node : String) : String :=
  "eups expandtable -i -W \x27^(?!LOCAL:)\x27 "
    ++ (if presetupStr ≠ "" then presetupStr ++ " " else "")
    ++ node

/-- Python `InstallEups(env, dest, files, presetup)` (lines 290-372).

Arguments beyond the Python signature carry the ambient state the body
reads: `installing` = `env.installing`, `clean` = `GetOption("clean")`,
`upsGlob` = the files the four `glob.glob("ups/...")` calls return,
`eupsImport` = `none` when `import eups.lock` raises `ImportError`, else
`some path` with `path` = `eups.Eups.setEupsPath()`, and `lockPid` =
`os.environ.get("EUPS_LOCK_PID", "-1")`.  `list(set(files))` leaves the
order unspecified; it is modelled as first-occurrence deduplication, which
is faithful up to ordering. -/
def InstallEups (env : PyEnv) (installing clean : Bool) (dest : String)
    (files0 : List String) (presetup : List (String × String))
    (upsGlob : List String) (eupsImport : Option (List String)) (lockPid : String) :
    List Act × List Effect :=
  if !installing then ([], [])
  else if clean then ([], [.warn ("Removing" ++ dest), .rmtree dest])
  else
    let presetupStr :=
      " ".intercalate (presetup.map (fun pv => "--product " ++ pv.1 ++ "=" ++ pv.2))
    let files := (files0 ++ upsGlob).eraseDups
    let node := fun f => pathJoin dest (baseName f)
    -- env['version'] was set by setPrefix before any InstallEups call; an
    -- absent key would raise KeyError in Python when a .build file is seen.
    let ver := match env.version with | some v => v | none => "unknown"
    let bObj := (buildFiles files).map (fun f => Act.installFile (node f) f)
    let tObj := (tableFiles files).map (fun f => Act.installFile (node f) f)
    let eObj := (eupspkgFiles files).map (fun f => Act.installFile (node f) f)
    let mObj := (miscFiles files).map (fun f => Act.installFile (node f) f)
    let lockEff : List Effect :=
      match eupsImport with
      | none => [.warn "Unable to import eups; not locking"]
      | some path =>
        if path ≠ [] then [.takeLocks path, .setEnvVar "EUPS_LOCK_PID" lockPid] else []
    let buildEff : List Effect :=
      (buildFiles files).flatMap (fun f =>
        [.alwaysBuild (.installFile (node f) f),
         .postAction bObj (expandbuildCmd env ver (node f))])
    let tActs := (tableFiles files).map (fun f =>
      Act.tableCmd (expandtableCmd presetupStr (node f)))
    let tableEff : List Effect :=
      (tableFiles files).flatMap (fun f =>
        [.alwaysBuild (.installFile (node f) f),
         .depends (.tableCmd (expandtableCmd presetupStr (node f))) (.installFile (node f) f)])
    (bObj ++ tObj ++ eObj ++ mObj ++ tActs,
     lockEff ++ buildEff ++ tableEff ++ [.sideEffect "eups" tActs])

/-! ## Helper lemmas -/

/-- With the recursive flag unset the walk never enters a subdirectory. -/
theorem walkDirs_false (es : List Entry) : walkDirs false es = [] := by
  induction es using walkDirs.induct false with
  | case1 => simp [walkDirs]
  | case2 n es ih => simpa [walkDirs] using ih
  | case3 n cs es ih1 ih2 => simp [walkDirs, ih2]

/-- Every filename the installer copies passes the ignore filter. -/
theorem walkCopied_all (ign : String → Bool) (rcv : Bool) (es : List Entry) :
    (walkCopied ign rcv es).all (fun f => !(ign f)) = true := by
  induction es using walkCopied.induct ign rcv with
  | case1 => simp [walkCopied]
  | case2 n es ih => by_cases h : ign n <;> simp [walkCopied, h, ih]
  | case3 n cs es ih1 ih2 =>
    by_cases h : rcv && (n != ".svn") <;> simp [walkCopied, h, ih1, ih2]

/-- A filename matching the ignore pattern never appears among the copies. -/
theorem walkCopied_matching_absent (ign : String → Bool) (rcv : Bool) (es : List Entry)
    (f : String) (hf : ign f = true) : (walkCopied ign rcv es).contains f = false := by
  have h := walkCopied_all ign rcv es
  rw [List.all_eq_true] at h
  by_contra hc
  rw [Bool.not_eq_false, List.contains_iff_exists_mem_beq] at hc
  obtain ⟨a, ha, hb⟩ := hc
  have : f = a := by simpa using hb
  subst this
  have := h f ha
  simp [hf] at this

/-- No string ends in both `.build` and `.table` (their last characters differ). -/
theorem build_table_conflict (f : String) (hb : strEndsWith f ".build" = true)
    (ht : strEndsWith f ".table" = true) : False := by
  unfold strEndsWith at hb ht
  rw [show (".build" : String).data.reverse = ['d','l','i','u','b','.'] from rfl] at hb
  rw [show (".table" : String).data.reverse = ['e','l','b','a','t','.'] from rfl] at ht
  cases hr : f.data.reverse with
  | nil => rw [hr] at hb; simp [listPre] at hb
  | cons a l =>
    rw [hr] at hb ht
    simp [listPre] at hb ht
    rw [← hb.1] at ht
    exact absurd ht.1 (by decide)

/-- Underlying character list of `replSlash`. -/
theorem replSlash_data (s : String) :
    (replSlash s).data = s.data.map (fun c => if c = '/' then '_' else c) := rfl

/-- No character of a `replSlash` image is a slash. -/
theorem replSlash_all_free (s : String) :
    (replSlash s).data.all (fun c => !(c == '/')) = true := by
  rw [replSlash_data, List.all_map, List.all_eq_true]
  intro c hc
  by_cases h : c = '/' <;> simp [h]

/-- Applying the slash substitution twice is the same as applying it once. -/
theorem replSlash_idem (s : String) : replSlash (replSlash s) = replSlash s := by
  unfold replSlash
  refine congrArg String.mk ?_
  rw [show (String.mk (s.data.map (fun c => if c = '/' then '_' else c))).data
        = s.data.map (fun c => if c = '/' then '_' else c) from rfl]
  rw [List.map_map]
  apply List.map_congr_left
  intro c hc
  by_cases h : c = '/' <;> simp [h, Function.comp]

/-! ## Concrete inputs used by witnesses and counterexamples -/

/-- A VCS oracle whose queries all succeed. -/
def trivVcs : Vcs := ⟨fun s => .ok ("svn-" ++ s), .ok "hg-v", .ok "git-v"⟩

/-- A VCS oracle whose queries all raise `RuntimeError("boom")`. -/
def vcsErr : Vcs := ⟨fun _ => .error "boom", .error "boom", .error "boom"⟩

/-- Environment with a configured version containing a slash. -/
def envSlash : PyEnv :=
  ⟨some "a/b", none, none, none, "linux", "p", none, false, false, false, "/cwd"⟩

/-- Environment with a slash-free configured version. -/
def envCfg : PyEnv :=
  ⟨some "1.2", none, none, none, "linux", "p", none, false, false, false, "/cwd"⟩

/-- Registry-disabled-mode environment with an explicit prefix override. -/
def envNoEups : PyEnv :=
  ⟨some "1.0", some "/opt/x", some "/reg", none, "linux", "p", none, false, true, false, "/cwd"⟩

/-- Environment whose `eupsPath` already ends in `/linux`, no explicit prefix. -/
def envC2 : PyEnv :=
  ⟨some "1.0", none, some "/reg/linux", none, "linux", "p", none, false, true, false, "/cwd"⟩

/-- Environment whose `eupsPath` already ends in `/linux`, explicit prefix set. -/
def envC2b : PyEnv :=
  ⟨some "1.0", some "/opt/x", some "/reg/linux", none, "linux", "p", none, false, true, false, "/cwd"⟩

/-- Environment with explicit prefix, registry path, and no configured version
(so the version resolves to "unknown"). -/
def envC7 : PyEnv :=
  ⟨none, some "/opt/x", some "/reg", none, "linux", "p", none, false, true, false, "/cwd"⟩

/-- Environment like `envC7` but with a configured version. -/
def envC7b : PyEnv :=
  ⟨some "1.0", some "/opt/x", some "/reg", none, "linux", "p", none, false, true, false, "/cwd"⟩

/-- Installing environment without force: a backend error is fatal. -/
def envC8 : PyEnv :=
  ⟨none, none, none, none, "linux", "p", none, false, true, false, "/cwd"⟩

/-- Installing environment with force set: a backend error is recoverable. -/
def envC8b : PyEnv :=
  ⟨none, none, none, none, "linux", "p", none, true, true, false, "/cwd"⟩

/-! ## The claims -/

/-- C1 (counterexample): the classification of `InstallEups` is NOT a
partition: the file `eupspkg.cfg` matches the registration-script prefix
`eupspkg` and also lies in the miscellaneous category (its name ends in
neither `.build` nor `.table`), so it is installed twice. -/
theorem InstallEups_partition_cex :
    "eupspkg.cfg" ∈ eupspkgFiles ["eupspkg.cfg"]
    ∧ "eupspkg.cfg" ∈ miscFiles ["eupspkg.cfg"] := by decide

/-- C1 (amended): for every candidate file list, the three suffix-driven
categories build (`.build`), table (`.table`) and miscellaneous (neither
suffix) are pairwise disjoint and their union is exactly the input; the
registration-script category is the files with prefix `eupspkg` and is not
disjoint from the other three. -/
theorem InstallEups_classification (fs : List String) (f : String) :
    (f ∈ fs ↔ (f ∈ buildFiles fs ∨ f ∈ tableFiles fs ∨ f ∈ miscFiles fs))
    ∧ ¬(f ∈ buildFiles fs ∧ f ∈ tableFiles fs)
    ∧ ¬(f ∈ buildFiles fs ∧ f ∈ miscFiles fs)
    ∧ ¬(f ∈ tableFiles fs ∧ f ∈ miscFiles fs)
    ∧ (f ∈ eupspkgFiles fs ↔ (f ∈ fs ∧ strStartsWith f "eupspkg" = true)) := by
  simp only [buildFiles, tableFiles, miscFiles, eupspkgFiles, List.mem_filter]
  refine ⟨?_, ?_, ?_, ?_, ?_⟩
  · constructor
    · intro hf
      by_cases hb : strEndsWith f ".build" <;> by_cases ht : strEndsWith f ".table" <;>
        simp [hf, hb, ht]
    · rintro (h | h | h) <;> exact h.1
  · rintro ⟨⟨-, hb⟩, ⟨-, ht⟩⟩; exact build_table_conflict f hb ht
  · rintro ⟨⟨-, hb⟩, ⟨-, hm⟩⟩; simp [hb] at hm
  · rintro ⟨⟨-, ht⟩, ⟨-, hm⟩⟩; simp [ht] at hm
  · trivial

/-- C2 (amended): when the derived registry root already ends in the
`/<flavor>` segment, `setPrefix` discards the derived eups prefix (the
source sets it to `None`): it then returns the expansion of the explicit
`prefix` override when that key is present, and otherwise (with a truthy
`eupsPath`) returns Python `None` — it does NOT return the registry root
itself, though indeed nothing is appended to it. -/
theorem setPrefix_flavorSuffix (vcs : Vcs) (env : PyEnv) (vs ver s : String)
    (h : resolveVersionStep vcs env vs = .ok ver)
    (hep : env.eupsPath = some s) (hs : s ≠ "")
    (hsuf : strEndsWith s ("/" ++ env.eupsFlavor) = true) :
    setPrefix vcs false env vs none =
      (match env.prefixKey with
       | some p =>
         match makeProductPath env ver p with
         | some r => .ok ⟨some r, [], ver⟩
         | none => .error .formatError
       | none => .ok ⟨none, [], ver⟩) := by
  unfold setPrefix
  rw [h]
  show setPrefixCore false env none ver = _
  unfold setPrefixCore
  simp only [hep, hs, hsuf, Bool.false_eq_true, if_false, reduceIte, Bool.not_true]
  cases hp : env.prefixKey with
  | none => simp [hs, hsuf]
  | some p => cases hm : makeProductPath env ver p <;> simp [hm, hs, hsuf]

/-- C2 (counterexample): with `eupsPath = "/reg/linux"`, flavor `linux` and
no explicit prefix, `setPrefix` returns Python `None`, not the registry
root `/reg/linux` the claim promises. -/
theorem setPrefix_flavorSuffix_cex :
    setPrefix trivVcs false envC2 "" none = .ok ⟨none, [], "1.0"⟩
    ∧ (none : Option String) ≠ some "/reg/linux" :=
  ⟨rfl, by decide⟩

/-- C2 (witness): the amended theorem applied to a concrete environment with
an explicit prefix override. -/
theorem setPrefix_flavorSuffix_witness :
    setPrefix trivVcs false envC2b "" none = .ok ⟨some "/opt/x", [], "1.0"⟩ :=
  setPrefix_flavorSuffix trivVcs envC2b "" "1.0" "/reg/linux" rfl rfl (by decide) (by decide)

/-- C3 (amended): for a version string matching neither the CVS `$Name:`
pattern nor the SVN `$HeadURL:` pattern nor a VCS-backend keyword,
`determineVersion` returns the configured version with every `/` replaced
by `_` (hence unchanged when it contains no slash), and the sentinel
`"unknown"` when no version is configured (including for the empty
string). -/
theorem determineVersion_fallthrough (vcs : Vcs) (env : PyEnv) (vs : String)
    (h1 : matchCvs vs = none) (h2 : matchSvnUrl vs = none)
    (h3 : (lowerStr vs == "hg") = false) (h4 : (lowerStr vs == "mercurial") = false)
    (h5 : (lowerStr vs == "git") = false) :
    determineVersion vcs env vs =
      .ok (match env.version with | some v => replSlash v | none => "unknown") := by
  unfold determineVersion determineVersionRaw
  cases hv : env.version with
  | some v => rfl
  | none =>
    by_cases he : vs = ""
    · simp [he]
      rfl
    · simp [he, h1, h2, h3, h4, h5]
      rfl

/-- C3 (counterexample): the configured version `a/b` is NOT returned
unchanged on the fallthrough path — the slash substitution turns it into
`a_b`. -/
theorem determineVersion_config_cex :
    determineVersion trivVcs envSlash "xyz" = .ok "a_b" ∧ ("a_b" : String) ≠ "a/b" :=
  ⟨rfl, by decide⟩

/-- C3 (witness): the amended theorem at a slash-free configured version,
which is then returned unchanged. -/
theorem determineVersion_fallthrough_witness :
    determineVersion trivVcs envCfg "xyz" = .ok "1.2" :=
  determineVersion_fallthrough trivVcs envCfg "xyz" rfl rfl rfl rfl rfl

/-- C4: in registry-disabled mode (`no_eups`), whenever `setPrefix` returns
(the version-resolution step did not terminate the build), it returns the
explicit `prefix` override when present and non-empty and `/usr/local`
otherwise, regardless of `eupsPath`, `eupsProductPath`, flavor, product and
version. -/
theorem setPrefix_noEups (vcs : Vcs) (env : PyEnv) (vs : String)
    (eppArg : Option String) (ver : String)
    (h : resolveVersionStep vcs env vs = .ok ver) :
    setPrefix vcs true env vs eppArg =
      .ok ⟨some (match env.prefixKey with
                 | some p => if p ≠ "" then p else "/usr/local"
                 | none => "/usr/local"), [], ver⟩ := by
  unfold setPrefix
  rw [h]
  show setPrefixCore true env eppArg ver = _
  unfold setPrefixCore
  cases hp : env.prefixKey with
  | none => rfl
  | some p => by_cases hpe : p = "" <;> simp [hpe]

/-- C4 (witness): registry-disabled mode at a concrete environment. -/
theorem setPrefix_noEups_witness :
    setPrefix trivVcs true envNoEups "" none = .ok ⟨some "/opt/x", [], "1.0"⟩ :=
  setPrefix_noEups trivVcs envNoEups "" none "1.0" rfl

/-- C5: the directory installer copies no file whose name matches the
exclusion predicate (for any tree, pattern and recursion flag); the default
pattern `~$|\.pyc$|\.os?$` matches `foo~`, `foo.pyc`, `foo.o` and
`foo.os`, so such names are never among the copied files. -/
theorem DirectoryInstaller_excludes (ign : String → Bool) (rcv : Bool) (es : List Entry) :
    (walkCopied ign rcv es).all (fun f => !(ign f)) = true
    ∧ defaultIgnore "foo~" = true ∧ defaultIgnore "foo.pyc" = true
    ∧ defaultIgnore "foo.o" = true ∧ defaultIgnore "foo.os" = true
    ∧ (walkCopied defaultIgnore rcv es).contains "foo~" = false
    ∧ (walkCopied defaultIgnore rcv es).contains "foo.pyc" = false
    ∧ (walkCopied defaultIgnore rcv es).contains "foo.o" = false
    ∧ (walkCopied defaultIgnore rcv es).contains "foo.os" = false :=
  ⟨walkCopied_all ign rcv es, by decide, by decide, by decide, by decide,
   walkCopied_matching_absent _ rcv es _ (by decide),
   walkCopied_matching_absent _ rcv es _ (by decide),
   walkCopied_matching_absent _ rcv es _ (by decide),
   walkCopied_matching_absent _ rcv es _ (by decide)⟩

/-- C6: with the recursive flag set the walk descends into exactly the
subdirectories with no `.svn` component on their path (the version-control
metadata directories the source prunes), and with the flag unset it
descends into no subdirectory at all. -/
theorem DirectoryInstaller_descent (es : List Entry) :
    walkDirs true es = (allDirPaths es).filter (fun p => !(p.contains ".svn"))
    ∧ walkDirs false es = [] := by
  constructor
  · induction es using walkDirs.induct true with
    | case1 => simp [walkDirs, allDirPaths]
    | case2 n es ih => simp [walkDirs, allDirPaths, ih]
    | case3 n cs es ih1 ih2 =>
      by_cases h : n = ".svn"
      · subst h
        simp [walkDirs, allDirPaths, ih2, List.filter_append, List.filter_map]
      · simp [walkDirs, allDirPaths, ih1, ih2, h, List.filter_append, List.filter_map,
          Ne.symm h]
        congr 1
        apply (List.filter_congr ?_).symm
        intro p hp
        simp [Function.comp, List.mem_cons, Ne.symm h]
  · exact walkDirs_false es

/-- C7 (amended): with both an explicit `prefix` and a registry-derived
prefix present, `setPrefix` always returns the expansion of the explicit
prefix, but the warning is emitted exactly when, in addition, the resolved
version is not `"unknown"` (and the derived prefix is non-empty and differs
from the explicit one). -/
theorem setPrefix_explicitPrefix (vcs : Vcs) (env : PyEnv) (vs ver s p : String)
    (h : resolveVersionStep vcs env vs = .ok ver)
    (hep : env.eupsPath = some s) (hs : s ≠ "")
    (hsuf : strEndsWith s ("/" ++ env.eupsFlavor) = false)
    (hp : env.prefixKey = some p) :
    setPrefix vcs false env vs none =
      (match makeProductPath env ver p with
       | some r =>
         .ok ⟨some r,
           (if ver ≠ "unknown"
               ∧ pathJoin (pathJoin (pathJoin s env.eupsFlavor) (prodPathOf env)) ver ≠ ""
               ∧ pathJoin (pathJoin (pathJoin s env.eupsFlavor) (prodPathOf env)) ver ≠ p then
              ["Ignoring prefix "
                ++ pathJoin (pathJoin (pathJoin s env.eupsFlavor) (prodPathOf env)) ver
                ++ " from EUPS_PATH"]
            else []), ver⟩
       | none => .error .formatError) := by
  unfold setPrefix
  rw [h]
  show setPrefixCore false env none ver = _
  unfold setPrefixCore
  simp only [hep, hp]
  cases hm : makeProductPath env ver p <;> simp [hm, hs, hsuf]

/-- C7 (counterexample): the version resolves to `"unknown"`; the explicit
prefix `/opt/x` and the derived prefix `/reg/linux/p/unknown` are both
present and differ, the explicit path is returned — but NO warning is
emitted. -/
theorem setPrefix_warn_cex :
    setPrefix trivVcs false envC7 "" none = .ok ⟨some "/opt/x", [], "unknown"⟩
    ∧ pathJoin (pathJoin (pathJoin "/reg" "linux") "p") "unknown" ≠ "/opt/x" :=
  ⟨rfl, by decide⟩

/-- C7 (witness): with a configured version `1.0` the warning IS emitted and
the explicit-prefix path returned. -/
theorem setPrefix_explicitPrefix_witness :
    setPrefix trivVcs false envC7b "" none =
      .ok ⟨some "/opt/x", ["Ignoring prefix /reg/linux/p/1.0 from EUPS_PATH"], "1.0"⟩ :=
  setPrefix_explicitPrefix trivVcs envC7b "" "1.0" "/reg" "/opt/x" rfl rfl (by decide)
    (by decide) rfl

/-- C8 (amended): when `determineVersion` raises a backend error inside
`setPrefix`: if `(installing or declaring) and not force`, the call is
fatal (`log.fail`: the build terminates, or a `RuntimeError` is raised in
traceback mode); otherwise the version falls back to `"unknown"` and the
call continues with the rest of `setPrefix` — no warning is logged for the
fallback. -/
theorem setPrefix_versionFailure (vcs : Vcs) (env : PyEnv) (vs : String)
    (eppArg : Option String) (noEups : Bool) (e : String)
    (h : determineVersion vcs env vs = .error e) :
    (((env.installing || env.declaring) && !env.force) = true →
       setPrefix vcs noEups env vs eppArg =
         .error (.logFail
           (e ++ "\nFound problem with version number; update or specify force=True to proceed")))
    ∧ (((env.installing || env.declaring) && !env.force) = false →
       setPrefix vcs noEups env vs eppArg = setPrefixCore noEups env eppArg "unknown") := by
  unfold setPrefix resolveVersionStep
  rw [h]
  constructor <;> intro hc <;> simp [hc, Except.bind]

/-- C8 (witness): installing without force, the backend error terminates
the build via `log.fail`. -/
theorem setPrefix_versionFailure_witness :
    setPrefix vcsErr false envC8 "git" none =
      .error (.logFail
        ("boom\nFound problem with version number; update or specify force=True to proceed")) :=
  (setPrefix_versionFailure vcsErr envC8 "git" none false "boom" rfl).1 rfl

/-- C8 (counterexample): the backend raises and force is set — the version
falls back to `"unknown"` and `setPrefix` completes with an EMPTY warning
list, refuting the claimed "logged warning" on the fallback path. -/
theorem setPrefix_versionFallback_cex :
    determineVersion vcsErr envC8b "git" = .error "boom"
    ∧ setPrefix vcsErr true envC8b "git" none = .ok ⟨some "/usr/local", [], "unknown"⟩ :=
  ⟨rfl, rfl⟩

/-- C9: every version string `determineVersion` returns contains no `/`
(each was replaced by `_`), and re-applying the replacement to a returned
value yields the same string. -/
theorem determineVersion_slash_free (vcs : Vcs) (env : PyEnv) (vs v : String)
    (h : determineVersion vcs env vs = .ok v) :
    v.data.all (fun c => !(c == '/')) = true ∧ replSlash v = v := by
  unfold determineVersion at h
  cases hr : determineVersionRaw vcs env vs with
  | ok w =>
    rw [hr] at h
    simp [Except.map] at h
    subst h
    exact ⟨replSlash_all_free w, replSlash_idem w⟩
  | error e => rw [hr] at h; simp [Except.map] at h

/-- C9 (witness): the configured version `a/b` comes back as `a_b`,
slash-free and a fixed point of the substitution. -/
theorem determineVersion_slash_free_witness :
    ("a_b" : String).data.all (fun c => !(c == '/')) = true ∧ replSlash "a_b" = "a_b" :=
  determineVersion_slash_free trivVcs envSlash "xyz" "a_b" rfl

/-- C10: with the installing flag unset, `InstallDir` and `InstallEups`
both return an empty action list and perform no effect — in particular
`InstallEups` does not remove the destination even with the clean option
set. -/
theorem installers_inactive (cwd pfx dir ir : String) (rcv : Bool) (env : PyEnv)
    (clean : Bool) (dest : String) (files : List String) (ps : List (String × String))
    (ug : List String) (lk : Option (List String)) (lp : String) :
    InstallDir false cwd pfx dir ir rcv = ([], [])
    ∧ InstallEups env false clean dest files ps ug lk lp = ([], []) :=
  ⟨rfl, rfl⟩

end SconsUtils
